import Mathlib

/-
Verification development for the real-time streaming transcription core of
the azure-speech-to-text repository.

The embedding follows the Python sources under src/gradio:
  - services/gradio_transcription_service.py (GradioTranscriptionService)
  - services/streaming_transcription_service.py (StreamingTranscriptionService)
  - services/gpt4o_realtime_service.py (GradioTranscriptionService wrapper)
  - tabs/gpt4o_realtime_tab.py (run_async_transcription)

Python dictionaries decoded from JSON are modelled by the PyValue type below.
Calls to the external json.loads routine are modelled by an arbitrary
function jl : String -> Option PyValue passed to the embedded handlers:
none stands for a raised JSONDecodeError, some v for a successful parse.
Message fields that the code reads with msg.get(key, default) and then uses
as strings (delta, transcript, message) are modelled as strings; non-string
field values are outside the scope of the claims under study.
-/

/-- Model of a decoded Python JSON value (the result of json.loads). -/
inductive PyValue where
  | null
  | bool (b : Bool)
  | num (n : Int)
  | str (s : String)
  | list (xs : List PyValue)
  | obj (kvs : List (String × PyValue))

/-- Model of dict.get(k): first binding of k in the association list, if any. -/
def dictGetOpt (kvs : List (String × PyValue)) (k : String) : Option PyValue :=
  match kvs with
  | [] => none
  | (k', v) :: rest => if k' = k then some v else dictGetOpt rest k

/-- Model of dict.get(k, default) for a key whose value is used as a string:
msg.get(k, d) in the handlers.  A present non-string value is out of the
modelled scope and mapped to the default. -/
def getStrFieldD (kvs : List (String × PyValue)) (k : String) (d : String) : String :=
  match dictGetOpt kvs k with
  | some (PyValue.str s) => s
  | _ => d

/-- True exactly for dict values: the only PyValue carrying the get method,
so the only one whose use in transcript_json.get does not raise AttributeError. -/
def PyValue.isObj : PyValue → Bool
  | PyValue.obj _ => true
  | _ => false

/-- Embedding of the azure-path transcript extraction shared by
queue_completed (streaming_transcription_service.py, lines 106-112) and
_enhanced_completed_handler (gradio_transcription_service.py, lines 142-148):

  try:
      transcript_json = json.loads(transcript_raw)
      transcript = transcript_json.get("text", "")
  except (json.JSONDecodeError, AttributeError):
      transcript = transcript_raw

parse is the outcome of the external json.loads call on raw: none models a
raised JSONDecodeError; a successful parse to a non-dict value makes the
subsequent .get attribute access raise AttributeError, caught by the same
except clause.  Totality of this function models that the handler does not
raise on any such input. -/
def extractAzureTranscript (raw : String) (parse : Option PyValue) : PyValue :=
  match parse with
  | none => PyValue.str raw
  | some (PyValue.obj kvs) => (dictGetOpt kvs "text").getD (PyValue.str "")
  | some _ => PyValue.str raw

/-- Whitespace characters dropped from the front of a character list. -/
def dropLeadingWs : List Char → List Char
  | [] => []
  | c :: cs => if c.isWhitespace then dropLeadingWs cs else c :: cs

/-- Model of the Python str.strip() method: leading and trailing whitespace
removed.  Python truthiness of transcript.strip() is pyStrip t ≠ "". -/
def pyStrip (s : String) : String :=
  ⟨((dropLeadingWs (dropLeadingWs s.data).reverse)).reverse⟩

/-- Concatenation of a list of strings, folded from the right. -/
def concatAll (ds : List String) : String :=
  ds.foldr (· ++ ·) ""

/-- The gradio_state transcript fields of GradioTranscriptionService
(gradio_transcription_service.py, lines 94-98): current_text is the partial
text accumulated from delta events, history the list of finalized turns.
The same shape models the tab-level state dict of gpt4o_realtime_tab.py.
The base-class fields mutated by the original delta/completed handlers
(current_transcription, transcribed_text) are distinct attributes of the
parent TranscriptionService and are not part of this aggregate. -/
structure GradioState where
  current_text : String
  history : List PyValue

/-- Embedding of _enhanced_delta_handler (gradio_transcription_service.py,
lines 119-133), restricted to its effect on gradio_state: the delta text is
appended to current_text and history is untouched. -/
def enhancedDeltaStep (st : GradioState) (delta : String) : GradioState :=
  { st with current_text := st.current_text ++ delta }

/-- Embedding of the state update of _enhanced_completed_handler
(gradio_transcription_service.py, lines 155-157) after transcript
extraction: current_text is reset to empty and the transcript is appended
to history, both unconditionally. -/
def enhancedCompletedApply (st : GradioState) (transcript : PyValue) : GradioState :=
  { current_text := "", history := st.history ++ [transcript] }

/-- Embedding of _enhanced_completed_handler (gradio_transcription_service.py,
lines 135-162) on a message whose transcript field holds the string raw:
azure-path extraction through the external parse outcome jl, openai path
taking the field verbatim, followed by the unconditional state update. -/
def enhancedCompletedHandler (jl : String → Option PyValue) (azure : Bool)
    (st : GradioState) (raw : String) : GradioState :=
  let transcript := if azure then extractAzureTranscript raw (jl raw) else PyValue.str raw
  enhancedCompletedApply st transcript

/-- Aggregator-level protocol event: a Delta or a TranscriptCompleted whose
payload is the already-extracted transcript text. -/
inductive GEvent where
  | delta (s : String)
  | completed (t : String)

/-- One aggregator step of the enhanced handlers on gradio_state. -/
def applyGEvent (st : GradioState) (e : GEvent) : GradioState :=
  match e with
  | GEvent.delta s => enhancedDeltaStep st s
  | GEvent.completed t => enhancedCompletedApply st (PyValue.str t)

/-- Folding a sequence of aggregator events over gradio_state. -/
def applyGEvents (st : GradioState) (es : List GEvent) : GradioState :=
  es.foldl applyGEvent st

/-- Embedding of the transcript branch of run_async_transcription
(gpt4o_realtime_tab.py, lines 203-217): the transcript is appended to the
history only when its stripped text is non-empty, and current_text is reset
to empty unconditionally afterwards. -/
def tabTranscriptStep (st : GradioState) (t : String) : GradioState :=
  let st1 := if pyStrip t ≠ "" then { st with history := st.history ++ [PyValue.str t] } else st
  { st1 with current_text := "" }

-- Helper lemmas

theorem applyGEvents_deltas (st : GradioState) (ds : List String) :
    applyGEvents st (ds.map GEvent.delta)
      = { st with current_text := st.current_text ++ concatAll ds } := by
  induction ds generalizing st with
  | nil => simp [applyGEvents, concatAll]
  | cons d ds ih =>
      simp only [List.map_cons, applyGEvents, List.foldl_cons] at *
      rw [show applyGEvent st (GEvent.delta d) = enhancedDeltaStep st d from rfl]
      rw [ih]
      simp [enhancedDeltaStep, concatAll, String.append_assoc]

/-- C1: for every sequence of Delta events followed by a non-empty
TranscriptCompleted with payload t, the enhanced handlers append exactly one
new turn to the history, whose text is t itself (not the concatenation of
the deltas), and current_text is reset to empty in the same step. -/
theorem aggregator_completed_appends_payload
    (st : GradioState) (ds : List String) (t : String) (ht : pyStrip t ≠ "") :
    applyGEvents st (ds.map GEvent.delta ++ [GEvent.completed t])
      = { current_text := "", history := st.history ++ [PyValue.str t] } := by
  simp only [applyGEvents, List.foldl_append, List.foldl_cons, List.foldl_nil]
  rw [show List.foldl applyGEvent st (ds.map GEvent.delta) = applyGEvents st (ds.map GEvent.delta) from rfl]
  rw [applyGEvents_deltas]
  rfl

/-- Witness for C1 at a concrete run of two deltas and one completion. -/
theorem aggregator_completed_appends_payload_witness :
    applyGEvents ⟨"", [PyValue.str "prior"]⟩
        ([GEvent.delta "hel", GEvent.delta "lo", GEvent.completed "hello"])
      = ⟨"", [PyValue.str "prior", PyValue.str "hello"]⟩ :=
  aggregator_completed_appends_payload ⟨"", [PyValue.str "prior"]⟩ ["hel", "lo"] "hello"
    (by decide)

/-- C2 counterexample: a TranscriptCompleted with empty text is not a no-op.
The service-level enhanced completed handler, applied to a state with the
non-empty partial "x" and empty history, appends the empty transcript as a
turn and clears the partial; even the tab-level step, which does skip the
append, still resets the non-empty partial to empty. -/
theorem empty_completed_not_noop_cex :
    pyStrip "" = ""
      ∧ enhancedCompletedApply ⟨"x", []⟩ (PyValue.str "")
          = ⟨"", [PyValue.str ""]⟩
      ∧ enhancedCompletedApply ⟨"x", []⟩ (PyValue.str "") ≠ ⟨"x", []⟩
      ∧ (tabTranscriptStep ⟨"x", []⟩ "").current_text = "" := by
  refine ⟨rfl, rfl, ?_, rfl⟩
  intro h
  have hh := congrArg GradioState.history h
  simp [enhancedCompletedApply] at hh

/-- C2 amended: at the tab level (run_async_transcription), a
TranscriptCompleted whose text is empty or whitespace-only appends no turn
to the history, but current_text is still reset to empty rather than
preserved. -/
theorem tab_empty_completed_keeps_history
    (st : GradioState) (t : String) (ht : pyStrip t = "") :
    tabTranscriptStep st t = { st with current_text := "" } := by
  simp [tabTranscriptStep, ht]

/-- Witness for the amended C2 at a whitespace-only transcript. -/
theorem tab_empty_completed_keeps_history_witness :
    tabTranscriptStep ⟨"partial", [PyValue.str "a"]⟩ "  "
      = ⟨"", [PyValue.str "a"]⟩ :=
  tab_empty_completed_keeps_history ⟨"partial", [PyValue.str "a"]⟩ "  " (by decide)

/-- C3: on the azure path, when the transcript field fails to decode as
nested JSON (json.loads raises, modelled by a none parse outcome, or parses
to a non-dict value so that the .get access raises AttributeError), the
completed handler falls back to the raw string and still appends a turn;
totality of the embedded handler models that it does not raise. -/
theorem azure_malformed_transcript_falls_back
    (jl : String → Option PyValue) (st : GradioState) (raw : String)
    (h : jl raw = none ∨ ∃ v, jl raw = some v ∧ v.isObj = false) :
    enhancedCompletedHandler jl true st raw
      = { current_text := "", history := st.history ++ [PyValue.str raw] } := by
  rcases h with h | ⟨v, hv, hobj⟩
  · simp [enhancedCompletedHandler, extractAzureTranscript, h, enhancedCompletedApply]
  · cases v <;>
      simp_all [enhancedCompletedHandler, extractAzureTranscript,
        enhancedCompletedApply, PyValue.isObj]

/-- Witness for C3: a transcript field parsing to the JSON number 5, on
which the .get attribute access would raise AttributeError, falls back to
the raw string and the turn is appended. -/
theorem azure_malformed_transcript_falls_back_witness :
    enhancedCompletedHandler (fun _ => some (PyValue.num 5)) true
        ⟨"p", [PyValue.str "a"]⟩ "5"
      = ⟨"", [PyValue.str "a", PyValue.str "5"]⟩ :=
  azure_malformed_transcript_falls_back (fun _ => some (PyValue.num 5))
    ⟨"p", [PyValue.str "a"]⟩ "5" (Or.inr ⟨PyValue.num 5, rfl, rfl⟩)

/-- Event placed on the asyncio message queue by the streaming handlers of
stream_transcription (streaming_transcription_service.py): the event_type
tag together with the data field.  The auxiliary fields current_text,
transcript_history and timestamp carried by the Python dicts are not needed
by the properties under study. -/
inductive QEvent where
  | delta (data : String)
  | transcript (data : PyValue)
  | status (data : String)
  | errorEvent (data : String)

/-- Python str.title() on a character list: an alphabetic character is
uppercased when the previous character is not alphabetic and lowercased
otherwise; other characters are kept and reset the word boundary. -/
def pyTitleAux : Bool → List Char → List Char
  | _, [] => []
  | prevAlpha, c :: cs =>
      (if c.isAlpha then (if prevAlpha then c.toLower else c.toUpper) else c)
        :: pyTitleAux c.isAlpha cs

/-- Model of the Python str.title() method. -/
def pyTitle (s : String) : String :=
  ⟨pyTitleAux false s.data⟩

/-- Model of the single-character replacement msg_type.replace of an
underscore by a space. -/
def replaceUnderscores (s : String) : String :=
  ⟨s.data.map (fun c => if c = '_' then ' ' else c)⟩

/-- The message types bound to streaming handlers in stream_transcription
(streaming_transcription_service.py, lines 165-171). -/
def streamingHandlerTypes : List String :=
  ["conversation.item.input_audio_transcription.delta",
   "conversation.item.input_audio_transcription.completed",
   "input_audio_buffer.speech_started",
   "input_audio_buffer.speech_stopped",
   "error"]

/-- The two unrecognized message types that additionally queue a status
event (streaming_transcription_service.py, line 197). -/
def sessionNoticeTypes : List String :=
  ["transcription_session.created", "transcription_session.updated"]

/-- Embedding of one dispatch step of streaming_receive_messages
(streaming_transcription_service.py, lines 174-205) on a decoded JSON
object message with fields kvs: the list of events put on the message
queue.  A recognized type runs its streaming handler, which queues exactly
one event; any other type is passed to the original handler (or printed to
stdout), and only transcription_session.created/updated additionally queue
a status event whose data is the title-cased type name with underscores
replaced by spaces.  A message whose type field is absent or not a string
matches no handler type and queues nothing. -/
def receiveQueued (jl : String → Option PyValue) (azure : Bool)
    (kvs : List (String × PyValue)) : List QEvent :=
  match dictGetOpt kvs "type" with
  | some (PyValue.str t) =>
      if t = "conversation.item.input_audio_transcription.delta" then
        [QEvent.delta (getStrFieldD kvs "delta" "")]
      else if t = "conversation.item.input_audio_transcription.completed" then
        let raw := getStrFieldD kvs "transcript" ""
        [QEvent.transcript
          (if azure then extractAzureTranscript raw (jl raw) else PyValue.str raw)]
      else if t = "input_audio_buffer.speech_started" then
        [QEvent.status "Speech detected, listening..."]
      else if t = "input_audio_buffer.speech_stopped" then
        [QEvent.status "Speech stopped"]
      else if t = "error" then
        [QEvent.errorEvent (getStrFieldD kvs "message" "Unknown error")]
      else if t ∈ sessionNoticeTypes then
        [QEvent.status (pyTitle (replaceUnderscores t))]
      else
        []
  | _ => []

/-- C4 counterexample: an inbound message of the unrecognized type
custom.event queues no event at all, so nothing is surfaced on the unified
event stream (the message is only printed to stdout); and even for the
unrecognized type transcription_session.created, the queued status carries
the title-cased name, not the raw type name. -/
theorem unrecognized_type_dropped_cex :
    "custom.event" ∉ streamingHandlerTypes
      ∧ receiveQueued (fun _ => none) true [("type", PyValue.str "custom.event")] = []
      ∧ receiveQueued (fun _ => none) true
            [("type", PyValue.str "transcription_session.created")]
          = [QEvent.status "Transcription Session.Created"]
      ∧ "Transcription Session.Created" ≠ "transcription_session.created" := by
  refine ⟨by decide, rfl, rfl, by decide⟩

/-- C4 amended: an inbound message whose type is unrecognized queues no
event on the unified stream, except for transcription_session.created and
transcription_session.updated, which queue one status event carrying the
title-cased type name with underscores replaced by spaces; no unrecognized
type is fatal (the dispatch is total and the loop continues). -/
theorem unrecognized_type_queue_events
    (jl : String → Option PyValue) (azure : Bool)
    (kvs : List (String × PyValue)) (t : String)
    (htype : dictGetOpt kvs "type" = some (PyValue.str t))
    (hunrec : t ∉ streamingHandlerTypes) :
    receiveQueued jl azure kvs
      = if t ∈ sessionNoticeTypes
          then [QEvent.status (pyTitle (replaceUnderscores t))]
          else [] := by
  have h1 : ¬ t = "conversation.item.input_audio_transcription.delta" := by
    intro h; subst h; exact hunrec (by decide)
  have h2 : ¬ t = "conversation.item.input_audio_transcription.completed" := by
    intro h; subst h; exact hunrec (by decide)
  have h3 : ¬ t = "input_audio_buffer.speech_started" := by
    intro h; subst h; exact hunrec (by decide)
  have h4 : ¬ t = "input_audio_buffer.speech_stopped" := by
    intro h; subst h; exact hunrec (by decide)
  have h5 : ¬ t = "error" := by
    intro h; subst h; exact hunrec (by decide)
  simp [receiveQueued, htype, h1, h2, h3, h4, h5]

/-- Witness for the amended C4 at the unrecognized type session.ping. -/
theorem unrecognized_type_queue_events_witness :
    receiveQueued (fun _ => none) false [("type", PyValue.str "session.ping")]
      = if "session.ping" ∈ sessionNoticeTypes
          then [QEvent.status (pyTitle (replaceUnderscores "session.ping"))]
          else [] :=
  unrecognized_type_queue_events (fun _ => none) false
    [("type", PyValue.str "session.ping")] "session.ping" rfl (by decide)

/-- The terminal status yielded by the finally block of stream_transcription
(streaming_transcription_service.py, lines 384-389). -/
def terminalStatusEvent : QEvent := QEvent.status "Transcription session ended"

/-- Recognizer for the terminal session-ended status event. -/
def isTerminalStatus : QEvent → Bool
  | QEvent.status s => s = "Transcription session ended"
  | _ => false

/-- How a run of stream_transcription ends once the session has started:
the try body runs to its end (deadline elapsed or termination requested),
or one of the three except clauses of lines 365-376 fires. -/
inductive RunEnding where
  | completed
  | invalidStatus (e : String)
  | connectionClosed (e : String)
  | internalError (e : String)

/-- The error event yielded by the matching except clause, if any. -/
def endingEvents : RunEnding → List QEvent
  | RunEnding.completed => []
  | RunEnding.invalidStatus e => [QEvent.errorEvent ("Invalid status: " ++ e)]
  | RunEnding.connectionClosed e => [QEvent.errorEvent ("Connection closed unexpectedly: " ++ e)]
  | RunEnding.internalError e => [QEvent.errorEvent ("WebSocket connection error: " ++ e)]

/-- Embedding of the yield sequence of one run of stream_transcription
(streaming_transcription_service.py, lines 32-391) after the is_recording
guard: the initial status, then the events yielded inside the try body
(pre: connection and configuration statuses, queue-processed events and
periodic ticks, cut short at the point an exception fires), then the error
event of the matching except clause, and finally the terminal status of the
finally block.  The guard path for a second concurrent call yields a single
Already-recording error without starting a session and is not a run of the
session. -/
def streamYields (duration : Nat) (pre : List QEvent) (ending : RunEnding) : List QEvent :=
  (QEvent.status ("Starting transcription for " ++ toString duration ++ " seconds")
      :: (pre ++ endingEvents ending)) ++ [terminalStatusEvent]

/-- The initial status of a run is never the terminal status: the two
strings differ in their first character. -/
theorem startStatus_not_terminal (d : Nat) :
    isTerminalStatus
      (QEvent.status ("Starting transcription for " ++ toString d ++ " seconds")) = false := by
  simp only [isTerminalStatus, decide_eq_false_iff_not]
  intro h
  generalize toString d = x at h
  obtain ⟨xd⟩ := x
  have hS : ("Starting transcription for " ++ String.mk xd ++ " seconds").data.head?
      = some 'S' := rfl
  rw [h] at hS
  exact absurd hS (by decide)

/-- Events queued by the receive dispatch are never the terminal status. -/
theorem receiveQueued_not_terminal (jl : String → Option PyValue) (azure : Bool)
    (kvs : List (String × PyValue)) :
    ∀ e ∈ receiveQueued jl azure kvs, isTerminalStatus e = false := by
  intro e he
  cases e with
  | delta d => rfl
  | transcript d => rfl
  | errorEvent d => rfl
  | status s =>
      simp only [isTerminalStatus, decide_eq_false_iff_not]
      intro hs
      subst hs
      revert he
      unfold receiveQueued
      cases dictGetOpt kvs "type" with
      | none => simp
      | some v =>
          cases v with
          | str t =>
              simp only []
              split_ifs with h1 h2 h3 h4 h5 h6 h7 <;> intro he <;> simp at he <;>
                try exact absurd he (by decide)
              simp only [sessionNoticeTypes, List.mem_cons,
                List.not_mem_nil, or_false] at h7
              rcases h7 with h | h <;> subst h <;> exact absurd he (by decide)
          | null => simp
          | bool b => simp
          | num n => simp
          | list xs => simp
          | obj o => simp

/-- C5: every run of the streaming session, however it ends among the
endings modelled by RunEnding, yields exactly one terminal session-ended
status, and it is the last event of the stream, provided the events of the
try body do not themselves contain the terminal status (which the handlers
never produce, per receiveQueued_not_terminal). -/
theorem session_ended_terminal_unique
    (duration : Nat) (pre : List QEvent) (ending : RunEnding)
    (hpre : ∀ e ∈ pre, isTerminalStatus e = false) :
    (streamYields duration pre ending).countP isTerminalStatus = 1
      ∧ (streamYields duration pre ending).getLast? = some terminalStatusEvent := by
  constructor
  · have hpre0 : pre.countP isTerminalStatus = 0 :=
      List.countP_eq_zero.mpr (fun a ha => by simp [hpre a ha])
    have hend0 : (endingEvents ending).countP isTerminalStatus = 0 := by
      cases ending <;> simp [endingEvents, isTerminalStatus]
    have hst := startStatus_not_terminal duration
    have hterm : isTerminalStatus terminalStatusEvent = true := by decide
    simp [streamYields, List.countP_append, List.countP_cons, hpre0, hend0,
      hst, hterm]
  · rw [streamYields, List.getLast?_append_of_ne_nil _ (by simp)]
    rfl

/-- Witness for C5 at a concrete run with two body events ending normally. -/
theorem session_ended_terminal_unique_witness :
    (streamYields 30
        [QEvent.status "WebSocket connection established", QEvent.delta "hi"]
        RunEnding.completed).countP isTerminalStatus = 1
      ∧ (streamYields 30
          [QEvent.status "WebSocket connection established", QEvent.delta "hi"]
          RunEnding.completed).getLast? = some terminalStatusEvent :=
  session_ended_terminal_unique 30
    [QEvent.status "WebSocket connection established", QEvent.delta "hi"]
    RunEnding.completed (by decide)

/-- The status queued by _run_transcription when the termination event was
set before the deadline (gradio_transcription_service.py, line 291). -/
def userStopMsg : String := "Status: ⏹️ Recording stopped by user"

/-- The status queued by _run_transcription when the deadline elapsed first
(gradio_transcription_service.py, line 294). -/
def timeLimitMsg : String := "Status: ⏹️ Recording reached time limit"

/-- Embedding of the waiting loop of _run_transcription
(gradio_transcription_service.py, lines 283-286): while the elapsed time is
below the deadline and the termination event is unset, sleep 0.1 seconds.
Time is discrete in tenths of a second; fuel is the number of tenths left
until the deadline, term the termination event as a function of elapsed
tenths, and the result the elapsed tenths at loop exit. -/
def runLoop (term : Nat → Bool) : Nat → Nat → Nat
  | 0, t => t
  | fuel + 1, t => if term t then t else runLoop term fuel (t + 1)

/-- Outcome of one execution of _run_transcription
(gradio_transcription_service.py, lines 272-311): the status queued after
the loop, whether the websocket task was cancelled (lines 297-302, skipped
when the task had already finished), the elapsed tenths at loop exit, and
the recording flag cleared in the finally block. -/
structure RunTransResult where
  statusMsg : String
  cancelCalled : Bool
  exitTenths : Nat
  is_recording : Bool

/-- Embedding of _run_transcription on the normal path: run the waiting
loop, queue the user-stop or time-limit status depending on the
termination event, cancel the websocket task unless it is already done,
and clear is_recording. -/
def runTranscriptionModel (maxDuration : Nat) (term : Nat → Bool)
    (taskDone : Bool) : RunTransResult :=
  let exitT := runLoop term (10 * maxDuration) 0
  { statusMsg := if term exitT then userStopMsg else timeLimitMsg
  , cancelCalled := !taskDone
  , exitTenths := exitT
  , is_recording := false }

/-- With the termination event never set, the waiting loop runs its full
fuel. -/
theorem runLoop_const_false (fuel t : Nat) :
    runLoop (fun _ => false) fuel t = fuel + t := by
  induction fuel generalizing t with
  | zero => simp [runLoop]
  | succ n ih => simp [runLoop, ih]; omega

/-- C6: a session with maxDurationSeconds N and no explicit stop exits its
waiting loop exactly when the deadline elapses (10 N tenths, within the
N + 2 second bound given the 2 second drain timeout of stop_transcription),
queues the time-limit status rather than the user-stop or an error status,
performs the same websocket-cancel drain step as an explicit stop, and
clears the recording flag. -/
theorem deadline_reaches_time_limit (N : Nat) (taskDone : Bool) :
    (runTranscriptionModel N (fun _ => false) taskDone).statusMsg = timeLimitMsg
      ∧ (runTranscriptionModel N (fun _ => false) taskDone).statusMsg ≠ userStopMsg
      ∧ (runTranscriptionModel N (fun _ => false) taskDone).is_recording = false
      ∧ (runTranscriptionModel N (fun _ => false) taskDone).exitTenths = 10 * N
      ∧ (runTranscriptionModel N (fun _ => false) taskDone).exitTenths ≤ 10 * (N + 2)
      ∧ (runTranscriptionModel N (fun _ => false) taskDone).cancelCalled
          = (runTranscriptionModel N (fun _ => true) taskDone).cancelCalled := by
  refine ⟨?_, ?_, rfl, ?_, ?_, rfl⟩
  · simp [runTranscriptionModel]
  · simp [runTranscriptionModel, timeLimitMsg, userStopMsg]
  · simp [runTranscriptionModel, runLoop_const_false]
  · simp [runTranscriptionModel, runLoop_const_false]

/-- The state of the GradioTranscriptionService wrapper of
gpt4o_realtime_service.py (lines 35-43): the recording flag and the
transcript view.  The thread and service references it also holds carry no
transcript data and are not part of the modelled state; joining a thread
does not change it. -/
structure RTServiceState where
  is_recording : Bool
  current_transcription : String
  transcription_history : List String
  current_status : String

/-- Embedding of stop_transcription (gpt4o_realtime_service.py, lines
233-250): when not recording, return the not-recording result and leave the
state untouched; otherwise clear the recording flag, join the recording
thread (no state effect), and return the stopped result. -/
def stop_transcription (st : RTServiceState) : RTServiceState × Bool × String :=
  if st.is_recording = false then (st, false, "Not currently recording")
  else ({ st with is_recording := false }, true, "Transcription stopped")

/-- Embedding of clear_history (gpt4o_realtime_service.py, lines 268-271):
reset the history and the current transcription to empty. -/
def clear_history (st : RTServiceState) : RTServiceState :=
  { st with transcription_history := [], current_transcription := "" }

/-- C7: stop is idempotent: on any state where no session is running the
call returns the not-recording result and leaves the state untouched, and
in particular a second stop right after a successful one returns the
not-recording result; neither call emits any event, so no duplicate
terminal event can arise from stopping twice. -/
theorem stop_transcription_idempotent (st : RTServiceState) :
    (stop_transcription (stop_transcription st).1).2
        = (false, "Not currently recording")
      ∧ (st.is_recording = false →
          stop_transcription st = (st, false, "Not currently recording")) := by
  constructor
  · by_cases h : st.is_recording = false <;>
      simp [stop_transcription, h]
  · intro h
    simp [stop_transcription, h]

/-- Witness for C7 at a concrete running state: stopping twice yields the
not-recording result the second time, and on an already-stopped state stop
is the identity with the not-recording result. -/
theorem stop_transcription_idempotent_witness :
    ((stop_transcription
        (stop_transcription ⟨true, "cur", ["a"], "s"⟩).1).2
          = (false, "Not currently recording"))
      ∧ ((⟨true, "cur", ["a"], "s"⟩ : RTServiceState).is_recording = false →
          stop_transcription ⟨true, "cur", ["a"], "s"⟩
            = (⟨true, "cur", ["a"], "s"⟩, false, "Not currently recording")) :=
  stop_transcription_idempotent ⟨true, "cur", ["a"], "s"⟩

/-- C9: stopping is transcript-preserving: stop_transcription only clears
the recording flag, leaving current_transcription, transcription_history
and current_status exactly as they were; only clear_history resets the
transcript fields to empty, and it touches nothing else. -/
theorem stop_preserves_transcript (st : RTServiceState) :
    (stop_transcription st).1 = { st with is_recording := false }
      ∧ clear_history st
          = { st with transcription_history := [], current_transcription := "" } := by
  refine ⟨?_, rfl⟩
  by_cases h : st.is_recording = false
  · cases st
    simp_all [stop_transcription]
  · simp [stop_transcription, h]

/-- The invalid-service-type status of start_realtime_transcription
(gpt4o_realtime_service.py, line 303). -/
def invalidServiceMsg : String :=
  "Status: ❌ Invalid service type. Choose \x27azure\x27 or \x27openai\x27"

/-- The invalid-model status (gpt4o_realtime_service.py, line 307). -/
def invalidModelMsg : String :=
  "Status: ❌ Invalid model. Choose \x27gpt-4o-transcribe\x27 or \x27gpt-4o-mini-transcribe\x27"

/-- The invalid-noise-reduction status (gpt4o_realtime_service.py, line 311). -/
def invalidNoiseMsg : String :=
  "Status: ❌ Invalid noise reduction. Choose None, \x27near_field\x27, or \x27far_field\x27"

/-- Result of one call to the module-level start_realtime_transcription:
the returned status string, whether a TranscriptionService instance was
constructed, whether the recording and monitor threads were started, and
the wrapper state afterwards. -/
structure StartOutcome where
  status : String
  serviceCreated : Bool
  threadStarted : Bool
  state : RTServiceState

/-- Embedding of start_realtime_transcription together with the
start_transcription method it calls (gpt4o_realtime_service.py, lines
278-330 and 45-231): the three parameter validations return an error
status before anything is created, started or mutated; past validation,
the already-recording and credential checks also return early, and only
then is the state reset, the service created and the threads started.
noise_reduction is an optional string (none models the Python None);
azureCreds and openaiCreds model whether the respective environment
credentials are present. -/
def start_realtime_transcription (azureCreds openaiCreds : Bool)
    (st : RTServiceState) (service_type modelName : String)
    (noise_reduction : Option String) : StartOutcome :=
  if service_type ∉ ["azure", "openai"] then
    { status := invalidServiceMsg, serviceCreated := false,
      threadStarted := false, state := st }
  else if modelName ∉ ["gpt-4o-transcribe", "gpt-4o-mini-transcribe"] then
    { status := invalidModelMsg, serviceCreated := false,
      threadStarted := false, state := st }
  else if noise_reduction ∉ [none, some "none", some "near_field", some "far_field"] then
    { status := invalidNoiseMsg, serviceCreated := false,
      threadStarted := false, state := st }
  else if st.is_recording then
    { status := "Status: ❌ Failed to start recording: Already recording",
      serviceCreated := false, threadStarted := false, state := st }
  else if (if service_type = "azure" then !azureCreds else !openaiCreds) then
    { status := "Status: ❌ Failed to start recording: "
        ++ (if service_type = "azure" then "Missing Azure OpenAI GPT-4o credentials"
            else "Missing OpenAI API key"),
      serviceCreated := false, threadStarted := false, state := st }
  else
    { status := "Status: 🎙️ Recording started. Speak into your microphone...",
      serviceCreated := true, threadStarted := true,
      state :=
        { is_recording := true
          current_transcription := ""
          transcription_history := []
          current_status := st.current_status } }

/-- C10: parameter validation is atomic: any call with an invalid service
type, model, or noise-reduction setting returns one of the three
validation error statuses and neither creates a service instance, nor
starts a thread, nor mutates the existing transcription state. -/
theorem invalid_params_start_is_noop
    (ac oc : Bool) (st : RTServiceState) (stype mdl : String)
    (nr : Option String)
    (h : stype ∉ ["azure", "openai"]
        ∨ mdl ∉ ["gpt-4o-transcribe", "gpt-4o-mini-transcribe"]
        ∨ nr ∉ [none, some "none", some "near_field", some "far_field"]) :
    (start_realtime_transcription ac oc st stype mdl nr).state = st
      ∧ (start_realtime_transcription ac oc st stype mdl nr).serviceCreated = false
      ∧ (start_realtime_transcription ac oc st stype mdl nr).threadStarted = false
      ∧ ((start_realtime_transcription ac oc st stype mdl nr).status = invalidServiceMsg
          ∨ (start_realtime_transcription ac oc st stype mdl nr).status = invalidModelMsg
          ∨ (start_realtime_transcription ac oc st stype mdl nr).status = invalidNoiseMsg) := by
  by_cases h1 : stype ∈ ["azure", "openai"]
  · by_cases h2 : mdl ∈ ["gpt-4o-transcribe", "gpt-4o-mini-transcribe"]
    · have h3 : nr ∉ [none, some "none", some "near_field", some "far_field"] := by
        rcases h with h | h | h
        · exact absurd h1 h
        · exact absurd h2 h
        · exact h
      simp [start_realtime_transcription, h1, h2, h3]
    · simp [start_realtime_transcription, h1, h2]
  · simp [start_realtime_transcription, h1]

/-- Witness for C10 at an invalid model name with otherwise valid
parameters. -/
theorem invalid_params_start_is_noop_witness :
    (start_realtime_transcription true true ⟨false, "c", ["h"], "s"⟩
        "azure" "whisper-1" none).state = ⟨false, "c", ["h"], "s"⟩
      ∧ (start_realtime_transcription true true ⟨false, "c", ["h"], "s"⟩
          "azure" "whisper-1" none).serviceCreated = false
      ∧ (start_realtime_transcription true true ⟨false, "c", ["h"], "s"⟩
          "azure" "whisper-1" none).threadStarted = false
      ∧ ((start_realtime_transcription true true ⟨false, "c", ["h"], "s"⟩
            "azure" "whisper-1" none).status = invalidServiceMsg
          ∨ (start_realtime_transcription true true ⟨false, "c", ["h"], "s"⟩
              "azure" "whisper-1" none).status = invalidModelMsg
          ∨ (start_realtime_transcription true true ⟨false, "c", ["h"], "s"⟩
              "azure" "whisper-1" none).status = invalidNoiseMsg) :=
  invalid_params_start_is_noop true true ⟨false, "c", ["h"], "s"⟩
    "azure" "whisper-1" none (Or.inr (Or.inl (by decide)))

/-- Python round() applied to a non-negative count of tenths of a second:
nearest integer, ties to even. -/
def pyRoundTenths (n : Nat) : Nat :=
  if n % 10 < 5 then n / 10
  else if 5 < n % 10 then n / 10 + 1
  else if (n / 10) % 2 = 0 then n / 10 else n / 10 + 1

/-- One iteration of the polling loop of process_message_queue
(streaming_transcription_service.py, lines 270-297): either the 0.1 second
queue wait returns an event, or it times out. -/
inductive Poll where
  | timeout
  | msg (e : QEvent)

/-- Whether a queue event is a status event, the only kind that gets a
time_remaining field attached on delivery (line 276). -/
def QEvent.isStatus : QEvent → Bool
  | QEvent.status _ => true
  | _ => false

/-- An event yielded by process_message_queue: a queue event passed
through, carrying a time_remaining hint exactly when it is a status event,
or a periodic tick generated in the timeout branch. -/
inductive OutEvent where
  | queued (e : QEvent) (time_remaining : Option Nat)
  | tick (time_remaining : Nat)

/-- Whether a yielded event is a periodic tick. -/
def OutEvent.isTick : OutEvent → Bool
  | OutEvent.tick _ => true
  | _ => false

/-- Whether a yielded event carries a time_remaining hint. -/
def carriesHint : OutEvent → Bool
  | OutEvent.tick _ => true
  | OutEvent.queued _ (some _) => true
  | _ => false

/-- Embedding of process_message_queue (streaming_transcription_service.py,
lines 266-305) over a discrete timeline in tenths of a second.  duration is
the session bound in seconds; s0T the wall-clock epoch time at start in
tenths; polls the schedule of queue poll outcomes while recording; t the
elapsed tenths; lu the last_time_update value.  Each poll iteration is
modelled as taking one tenth of a second (the timeout when the queue is
empty, the consumer hand-off otherwise).  The loop exits when the elapsed
time reaches the duration.  A delivered status event carries
time_remaining = round(max(0, duration - elapsed)); a timeout emits a tick
with the same hint only when the integer wall-clock second has advanced
past last_time_update (lines 285-297), so at most one tick per second and
none while messages keep arriving. -/
def procTrace (duration s0T : Nat) : List Poll → Nat → Nat → List (Nat × OutEvent)
  | [], _, _ => []
  | p :: ps, t, lu =>
      if t < 10 * duration then
        match p with
        | Poll.msg e =>
            (t, OutEvent.queued e
                (if e.isStatus then some (pyRoundTenths (10 * duration - t)) else none))
              :: procTrace duration s0T ps (t + 1) lu
        | Poll.timeout =>
            if lu < (s0T + t + 1) / 10 then
              (t + 1, OutEvent.tick (pyRoundTenths (10 * duration - (t + 1))))
                :: procTrace duration s0T ps (t + 1) ((s0T + t + 1) / 10)
            else
              procTrace duration s0T ps (t + 1) lu
      else []

/-- C8 counterexample: during a two-second stretch in which the queue
always has a delta message ready (twenty consecutive message polls), the
loop yields twenty events but no periodic tick and no event carrying a
time_remaining hint, so no status tick is emitted at least once per second
while streaming. -/
theorem busy_stream_no_tick_cex :
    (procTrace 30 10000 (List.replicate 20 (Poll.msg (QEvent.delta "x"))) 0 0).length = 20
      ∧ ∀ x ∈ procTrace 30 10000 (List.replicate 20 (Poll.msg (QEvent.delta "x"))) 0 0,
          x.2.isTick = false ∧ carriesHint x.2 = false := by
  decide

/-- C8 amended: every periodic tick yielded at elapsed time p.1 carries
time_remaining = round(max(0, duration - elapsed)); and whenever a poll
times out before the deadline with the integer wall-clock second advanced
past last_time_update, a tick is emitted immediately, so every fully idle
second produces a tick; no tick is produced while messages keep arriving. -/
theorem tick_hint_and_idle_emission
    (duration s0T : Nat) (polls : List Poll) (t lu : Nat) :
    (∀ p ∈ procTrace duration s0T polls t lu, ∀ r, p.2 = OutEvent.tick r →
        r = pyRoundTenths (10 * duration - p.1))
      ∧ (∀ ps, polls = Poll.timeout :: ps → t < 10 * duration →
          lu < (s0T + t + 1) / 10 →
          (procTrace duration s0T polls t lu).head?
            = some (t + 1, OutEvent.tick (pyRoundTenths (10 * duration - (t + 1))))) := by
  constructor
  · induction polls generalizing t lu with
    | nil =>
        intro p hp r hr
        simp [procTrace] at hp
    | cons q ps ih =>
        intro p hp r hr
        rw [procTrace.eq_def] at hp
        simp only [] at hp
        by_cases hlt : t < 10 * duration
        · simp only [hlt, if_true] at hp
          cases q with
          | msg e =>
              rcases List.mem_cons.mp hp with hp1 | hp2
              · subst hp1
                simp [OutEvent.isTick] at hr
              · exact ih (t + 1) lu p hp2 r hr
          | timeout =>
              by_cases hsec : lu < (s0T + t + 1) / 10
              · simp only [hsec, if_true] at hp
                rcases List.mem_cons.mp hp with hp1 | hp2
                · subst hp1
                  simp only at hr
                  injection hr with hinj
                  simp [← hinj]
                · exact ih (t + 1) ((s0T + t + 1) / 10) p hp2 r hr
              · simp only [hsec, if_false] at hp
                exact ih (t + 1) lu p hp r hr
        · simp only [hlt, if_false] at hp
          simp at hp
  · intro ps hps hlt hsec
    subst hps
    rw [procTrace.eq_def]
    simp [hlt, hsec]

/-- Witness for the amended C8: a timeout poll right after start with the
wall-clock second advanced emits a tick whose hint is the rounded full
remaining duration. -/
theorem tick_hint_and_idle_emission_witness :
    (procTrace 30 10000 [Poll.timeout] 0 0).head?
      = some (1, OutEvent.tick 30) :=
  (tick_hint_and_idle_emission 30 10000 [Poll.timeout] 0 0).2 []
    rfl (by decide) (by decide)
